import Mathlib

/-!
Shallow embedding of `nmea-monitor` (src/main.rs): the staleness-aware
status store (`StatusValue`, `NmeaStatus`), the ingestion task loop, and
the render loop of `run`, together with theorems checking the
specification's claims about them.

Modelling conventions:
* `tokio::time::Instant` and `std::time::Duration` are modelled as `Nat`
  (milliseconds).  Rust's `Instant::elapsed` saturates at zero when the
  clock would regress, which truncated `Nat` subtraction mirrors exactly.
* The `f64` field values are never computed with, only stored and
  displayed, so `NmeaStatus` is parameterised by an arbitrary value type
  `α` standing for `f64`.
* The clock is passed explicitly: every operation that calls
  `Instant::now()` in the source takes the current sample time as an
  argument.
-/

/-- One field slot (main.rs lines 179–184, `struct StatusValue<T>`):
the last stored value (possibly explicitly absent), the instant of the
last write (`Instant`, in ms), and the staleness timeout (`Duration`,
in ms). -/
structure StatusValue (α : Type) where
  inner : Option α
  updated_at : Nat
  timeout : Nat
  deriving DecidableEq

/-- Construction-time default of a slot (main.rs lines 186–194,
`impl Default for StatusValue<T>`): no value, `updated_at` sampled from
the clock at construction (`Instant::now()`), timeout 5 seconds. -/
def StatusValue.default {α : Type} (now : Nat) : StatusValue α :=
  { inner := none, updated_at := now, timeout := 5000 }

/-- Slot constructor (main.rs lines 197–202, `StatusValue::new`): the
construction-time default with the timeout overridden. -/
def StatusValue.new {α : Type} (timeout : Nat) (now : Nat) : StatusValue α :=
  { StatusValue.default now with timeout := timeout }

/-- Writing a slot (main.rs lines 204–207, `StatusValue::update`):
overwrite the stored value (possibly with explicit absence) and advance
`updated_at` to the current instant. -/
def StatusValue.update {α : Type} (sv : StatusValue α) (next : Option α)
    (now : Nat) : StatusValue α :=
  { sv with inner := next, updated_at := now }

/-- Staleness-aware read (main.rs lines 209–214, `StatusValue::get`):
the stored value passes the filter exactly when the elapsed time since
the last write (`now - updated_at`, saturating at zero) is strictly
below the timeout. -/
def StatusValue.get {α : Type} (sv : StatusValue α) (now : Nat) : Option α :=
  sv.inner.filter (fun _ => now - sv.updated_at < sv.timeout)

/-- Fix-quality labels of the decoder (the `nmea` crate's
`sentences::FixType`, matched exhaustively in main.rs lines 77–87). -/
inductive FixType : Type
  | invalid
  | gps
  | dgps
  | pps
  | rtk
  | floatRtk
  | estimated
  | manual
  | simulation
  deriving DecidableEq

/-- The 1:1 mapping of decoder fix-quality variants onto the store's
static label strings (the `match` in main.rs lines 77–87). -/
def fixTypeLabel : FixType → String
  | .invalid => "Invalid"
  | .gps => "Gps"
  | .dgps => "DGps"
  | .pps => "Pps"
  | .rtk => "Rtk"
  | .floatRtk => "FloatRtk"
  | .estimated => "Estimated"
  | .manual => "Manual"
  | .simulation => "Simulation"

/-- The status store (main.rs lines 106–115, `struct NmeaStatus`):
one slot per tracked field.  `α` stands for `f64`. -/
structure NmeaStatus (α : Type) where
  lat : StatusValue α
  lon : StatusValue α
  alt : StatusValue α
  hdg : StatusValue α
  sog : StatusValue α
  cog : StatusValue α
  fix_type : StatusValue String
  deriving DecidableEq

/-- Store constructor (main.rs lines 117–129, `NmeaStatus::new`): every
slot built with the same configured timeout,  `updated_at` sampled at
construction. -/
def NmeaStatus.new {α : Type} (timeout : Nat) (now : Nat) : NmeaStatus α :=
  { lat := StatusValue.new timeout now
    lon := StatusValue.new timeout now
    alt := StatusValue.new timeout now
    hdg := StatusValue.new timeout now
    sog := StatusValue.new timeout now
    cog := StatusValue.new timeout now
    fix_type := StatusValue.new timeout now }

/-- The fields a decoded GGA sentence carries (the `gga` payload used in
main.rs lines 72–88): latitude, longitude, altitude (the source's `f32`
altitude is converted into `f64` by `From::from`; both are `α` here),
and fix type, each possibly absent. -/
structure GgaData (α : Type) where
  latitude : Option α
  longitude : Option α
  altitude : Option α
  fix_type : Option FixType
  deriving DecidableEq

/-- Outcome of `nmea::parse_str` on one line, as consumed by the
ingestion task (main.rs lines 70–91): a GGA sentence, some other
recognized sentence (the `_ => \x7b\x7d` arm), or a decode error
(the `Err` swallowed by `if let Ok(parsed)`). -/
inductive ParseOutcome (α : Type) : Type
  | gga (g : GgaData α)
  | otherSentence
  | decodeError
  deriving DecidableEq

/-- Effect of a decoded GGA sentence on the store (main.rs lines 72–88):
`lat`, `lon`, `alt` and `fix_type` are overwritten with the sentence's
(possibly absent) values; `hdg`, `sog`, `cog` are not touched.  In the
source each `update` samples `Instant::now()` itself; the model passes
the one sample time `now` of the ingestion step to all four. -/
def applyGGA {α : Type} (st : NmeaStatus α) (g : GgaData α) (now : Nat) :
    NmeaStatus α :=
  { st with
    lat := st.lat.update g.latitude now
    lon := st.lon.update g.longitude now
    alt := st.alt.update g.altitude now
    fix_type := st.fix_type.update (g.fix_type.map fixTypeLabel) now }

/-- Processing of one successfully read line by the ingestion task
(main.rs lines 70–91): only a GGA sentence updates the store; any other
parse outcome leaves it unchanged. -/
def ingestLine {α : Type} (st : NmeaStatus α) (r : ParseOutcome α)
    (now : Nat) : NmeaStatus α :=
  match r with
  | .gga g => applyGGA st g now
  | .otherSentence => st
  | .decodeError => st

/-- Result of one `stdin.next_line().await` (main.rs line 68): a line
(represented by its parse outcome, since the decoder is an external
collaborator), end of source (`Ok(None)`), or an I/O error (`Err`).  -/
inductive ReadResult (α : Type) : Type
  | line (r : ParseOutcome α)
  | eof
  | ioFailure
  deriving DecidableEq

/-- State of the spawned ingestion task: still looping, or stopped by
the panic that `unwrap()` raises on an I/O error (main.rs line 68).
Either way it carries the store as last written by ingestion. -/
inductive TaskState (α : Type) : Type
  | running (st : NmeaStatus α)
  | panicked (st : NmeaStatus α)
  deriving DecidableEq

/-- One iteration of the ingestion task loop (main.rs lines 66–94): an
I/O error panics the task (which therefore never writes again); end of
source is skipped by `if let Some(line)` and the loop continues idle;
a line is decoded and applied.  A panicked task stays panicked. -/
def ingestStep {α : Type} (ts : TaskState α) (r : ReadResult α)
    (now : Nat) : TaskState α :=
  match ts with
  | .panicked st => .panicked st
  | .running st =>
    match r with
    | .ioFailure => .panicked st
    | .eof => .running st
    | .line pr => .running (ingestLine st pr now)

/-- Key codes of cancellation events, as far as `run` distinguishes
them (main.rs line 142 matches only `KeyCode::Esc`; every other code,
modifier or kind is ignored). -/
inductive KeyCode : Type
  | esc
  | otherKey
  deriving DecidableEq

/-- A cancellation-source event (crossterm `Event`): a key event with
its code, or any non-key event (resize, mouse, ...). -/
inductive TermEvent : Type
  | key (code : KeyCode)
  | nonKey
  deriving DecidableEq

/-- The two things the `tokio::select!` in `run` can wake on
(main.rs lines 135–144): the 60 Hz interval tick, or a cancellation
event. -/
inductive LoopInput : Type
  | tick
  | event (e : TermEvent)
  deriving DecidableEq

/-- The render loop's state (spec §4.3): the `while` in main.rs
lines 135–144 is looping (Running) or has exited (Terminated). -/
inductive RunState : Type
  | running
  | terminated
  deriving DecidableEq

/-- The render loop starts in Running: `run` enters the `while` loop
directly (main.rs line 135). -/
def runInit : RunState := RunState.running

/-- One reaction of the render loop (main.rs lines 135–144): a tick
draws and continues (`true`); an event continues unless it is an Esc
key event (`!matches!(event, Event::Key(KeyEvent \x7b code: KeyCode::Esc, ..\x7d))`);
once the loop has exited, nothing runs any more. -/
def runStep : RunState → LoopInput → RunState
  | .terminated, _ => .terminated
  | .running, .tick => .running
  | .running, .event e =>
    match e with
    | .key .esc => .terminated
    | .key .otherKey => .running
    | .nonKey => .running

/-- Joint state of the two concurrent activities of `main`
(main.rs lines 48–104): the spawned ingestion task and the render
loop that `main` awaits. -/
structure ProcState (α : Type) where
  ingest : TaskState α
  render : RunState
  deriving DecidableEq

/-- A scheduling step of either activity. -/
inductive ProcInput (α : Type) : Type
  | ingest (r : ReadResult α) (now : Nat)
  | render (i : LoopInput)
  deriving DecidableEq

/-- Interleaved execution of the two activities: each input advances
one of them, the other is untouched.  The ingestion task runs under
`tokio::spawn` (main.rs line 66), whose panics are caught by the
runtime and surfaced only through the join handle — which `main`
drops, awaiting only `run` (main.rs line 99); so a task panic does not
transition the render loop. -/
def procStep {α : Type} (p : ProcState α) (i : ProcInput α) : ProcState α :=
  match i with
  | .ingest r now => { p with ingest := ingestStep p.ingest r now }
  | .render i => { p with render := runStep p.render i }

/-- Whether the process's main activity has ended: `main` awaits only
`run` (main.rs line 99), so the process winds down exactly when the
render loop reaches Terminated. -/
def processEnded {α : Type} (p : ProcState α) : Bool :=
  match p.render with
  | .terminated => true
  | .running => false

/-- Default value of the `--timeout` CLI flag (main.rs lines 28–29):
`default_value = "1s"`, parsed by humantime into one second. -/
def argsTimeoutDefault : Nat := 1000

/-- The store `main` constructs (main.rs line 52) when the timeout flag
is left unconfigured: `NmeaStatus::new` applied to the flag's default. -/
def defaultConfiguredStore {α : Type} (now : Nat) : NmeaStatus α :=
  NmeaStatus.new argsTimeoutDefault now

/-- Display of one slot (main.rs lines 216–226, the `Text` conversion):
a fresh present value displays via `to_string`, otherwise the
placeholder string `"value"` is shown. -/
def statusText {α : Type} (toStr : α → String) (sv : StatusValue α)
    (now : Nat) : String :=
  match sv.get now with
  | some v => toStr v
  | none => "value"

/-- States of the store reachable by ingestion from the store `main`
constructs: the freshly constructed store, closed under processing
lines (with arbitrary decode outcomes at arbitrary times). -/
inductive Reachable {α : Type} (timeout : Nat) (now0 : Nat) :
    NmeaStatus α → Prop
  | init : Reachable timeout now0 (NmeaStatus.new timeout now0)
  | step (st : NmeaStatus α) (r : ParseOutcome α) (now : Nat) :
      Reachable timeout now0 st → Reachable timeout now0 (ingestLine st r now)

/-! ## Helper lemmas -/

/-- Closed form of the staleness-aware read. -/
theorem StatusValue.get_eq {α : Type} (sv : StatusValue α) (now : Nat) :
    sv.get now = if now - sv.updated_at < sv.timeout then sv.inner else none := by
  cases h : sv.inner with
  | none => simp [StatusValue.get, h, Option.filter]
  | some w => simp [StatusValue.get, h, Option.filter]

/-- A slot with no stored value displays the placeholder. -/
theorem statusText_of_inner_none {α : Type} (toStr : α → String)
    (sv : StatusValue α) (now : Nat) (h : sv.inner = none) :
    statusText toStr sv now = "value" := by
  simp [statusText, StatusValue.get_eq, h]

/-! ## Claim theorems -/

/-- C1: the staleness-aware read returns `some v` exactly when the
stored value is `some v` and `now - last_written < timeout`; it returns
`none` when the slot holds no value or is stale; and after a `some`
write at time `T` with no further update, the read is present at every
sample time in `[T, T + timeout)` and absent at every sample time
`>= T + timeout`. -/
theorem snapshot_staleness_window {α : Type} (sv : StatusValue α) (now : Nat)
    (v : α) (T : Nat) :
    (sv.get now = some v ↔ sv.inner = some v ∧ now - sv.updated_at < sv.timeout) ∧
    (sv.inner = none → sv.get now = none) ∧
    (sv.timeout ≤ now - sv.updated_at → sv.get now = none) ∧
    (∀ t, T ≤ t → t < T + sv.timeout → (sv.update (some v) T).get t = some v) ∧
    (∀ t, T + sv.timeout ≤ t → (sv.update (some v) T).get t = none) := by
  refine ⟨?_, ?_, ?_, ?_, ?_⟩
  · rw [StatusValue.get_eq]
    split <;> rename_i hlt
    · constructor
      · intro h; exact ⟨h, hlt⟩
      · intro h; exact h.1
    · constructor
      · intro h; simp at h
      · intro h; exact absurd h.2 hlt
  · intro h; rw [StatusValue.get_eq, h]; split <;> rfl
  · intro h
    have hn : ¬ (now - sv.updated_at < sv.timeout) := by omega
    rw [StatusValue.get_eq, if_neg hn]
  · intro t h1 h2
    have hp : t - (sv.update (some v) T).updated_at < (sv.update (some v) T).timeout := by
      simp only [StatusValue.update]
      omega
    rw [StatusValue.get_eq, if_pos hp]
    rfl
  · intro t h1
    have hn : ¬ (t - (sv.update (some v) T).updated_at < (sv.update (some v) T).timeout) := by
      simp only [StatusValue.update]
      omega
    rw [StatusValue.get_eq, if_neg hn]

/-- Witness for C1: with timeout 1000 ms and a write of `5` at t = 10,
the read at t = 500 is present and the read at t = 1010 is absent. -/
theorem snapshot_staleness_window_witness :
    ((StatusValue.new 1000 0 : StatusValue Int).update (some 5) 10).get 500 = some 5 ∧
    ((StatusValue.new 1000 0 : StatusValue Int).update (some 5) 10).get 1010 = none :=
  ⟨(snapshot_staleness_window (StatusValue.new 1000 0) 0 5 10).2.2.2.1 500
      (by decide) (by decide),
   (snapshot_staleness_window (StatusValue.new 1000 0) 0 5 10).2.2.2.2 1010
      (by decide)⟩

/-- C2: ingesting a GGA sentence updates exactly the `lat`, `lon`,
`alt` and `fix_type` slots; the `hdg`, `sog` and `cog` slots — value
and timestamp both — are left unchanged. -/
theorem gga_selective_update {α : Type} (st : NmeaStatus α) (g : GgaData α)
    (now : Nat) :
    (ingestLine st (.gga g) now).hdg = st.hdg ∧
    (ingestLine st (.gga g) now).sog = st.sog ∧
    (ingestLine st (.gga g) now).cog = st.cog ∧
    (ingestLine st (.gga g) now).lat = st.lat.update g.latitude now ∧
    (ingestLine st (.gga g) now).lon = st.lon.update g.longitude now ∧
    (ingestLine st (.gga g) now).alt = st.alt.update g.altitude now ∧
    (ingestLine st (.gga g) now).fix_type
      = st.fix_type.update (g.fix_type.map fixTypeLabel) now :=
  ⟨rfl, rfl, rfl, rfl, rfl, rfl, rfl⟩

/-- C3 counterexample: with the timeout flag left unconfigured, the
store `main` constructs has timeout 1000 ms on its slots, not the
5000 ms the claim asserts. -/
theorem timeout_default_counterexample :
    (defaultConfiguredStore 0 : NmeaStatus Int).lat.timeout = 1000 ∧
    (1000 : Nat) ≠ 5000 :=
  ⟨rfl, by decide⟩

/-- C3 amended: if the timeout flag is unconfigured, the CLI default is
one second, and the Status Store is constructed with a 1-second timeout
on every slot; the 5-second value of `StatusValue::default` exists but
is always overridden by `StatusValue::new`. -/
theorem timeout_default_is_one_second {α : Type} (now : Nat) :
    argsTimeoutDefault = 1000 ∧
    (defaultConfiguredStore now : NmeaStatus α).lat.timeout = argsTimeoutDefault ∧
    (defaultConfiguredStore now : NmeaStatus α).lon.timeout = argsTimeoutDefault ∧
    (defaultConfiguredStore now : NmeaStatus α).alt.timeout = argsTimeoutDefault ∧
    (defaultConfiguredStore now : NmeaStatus α).hdg.timeout = argsTimeoutDefault ∧
    (defaultConfiguredStore now : NmeaStatus α).sog.timeout = argsTimeoutDefault ∧
    (defaultConfiguredStore now : NmeaStatus α).cog.timeout = argsTimeoutDefault ∧
    (defaultConfiguredStore now : NmeaStatus α).fix_type.timeout = argsTimeoutDefault ∧
    (StatusValue.default now : StatusValue α).timeout = 5000 ∧
    (StatusValue.new argsTimeoutDefault now : StatusValue α).timeout = argsTimeoutDefault :=
  ⟨rfl, rfl, rfl, rfl, rfl, rfl, rfl, rfl, rfl, rfl⟩

/-- C4 counterexample: after an I/O error on read panics the ingestion
task, the process's main activity has not ended — the render loop is
still running and a subsequent render tick proceeds normally. -/
theorem io_failure_not_process_ending :
    processEnded (procStep
      ({ ingest := .running (NmeaStatus.new 1000 0), render := .running } : ProcState Int)
      (.ingest .ioFailure 5)) = false ∧
    (procStep (procStep
      ({ ingest := .running (NmeaStatus.new 1000 0), render := .running } : ProcState Int)
      (.ingest .ioFailure 5)) (.render .tick)).render = RunState.running :=
  ⟨rfl, rfl⟩

/-- C4 amended: an I/O error on the next-line read is fatal to the
Ingestion Task — the task panics, stops permanently, and the error is
never retried or recovered — but it does not terminate the process:
the render loop's state is untouched and the process's main activity
continues. -/
theorem io_failure_fatal_to_ingestion_task {α : Type} (p : ProcState α)
    (st : NmeaStatus α) (now : Nat) (h : p.ingest = .running st) :
    (procStep p (.ingest .ioFailure now)).ingest = .panicked st ∧
    (procStep p (.ingest .ioFailure now)).render = p.render ∧
    processEnded (procStep p (.ingest .ioFailure now)) = processEnded p ∧
    ∀ (r : ReadResult α) (t : Nat), ingestStep (.panicked st) r t = .panicked st := by
  refine ⟨?_, rfl, rfl, fun r t => rfl⟩
  simp [procStep, ingestStep, h]

/-- Witness for C4: a concrete I/O error step panics the task while the
store stays as last written. -/
theorem io_failure_fatal_to_ingestion_task_witness :
    (procStep
      ({ ingest := .running (NmeaStatus.new 1000 0), render := .running } : ProcState Int)
      (.ingest .ioFailure 5)).ingest = .panicked (NmeaStatus.new 1000 0) :=
  (io_failure_fatal_to_ingestion_task _ _ 5 rfl).1

/-- C5: two sequential updates on the same slot leave exactly the
second value stored and `last_written` equal to the second call's time;
the composite equals a single update with the second call's arguments. -/
theorem update_last_write_wins {α : Type} (sv : StatusValue α)
    (n1 n2 : Option α) (t1 t2 : Nat) :
    ((sv.update n1 t1).update n2 t2).inner = n2 ∧
    ((sv.update n1 t1).update n2 t2).updated_at = t2 ∧
    (sv.update n1 t1).update n2 t2 = sv.update n2 t2 :=
  ⟨rfl, rfl, rfl⟩

/-- C6 counterexample: there is no designated "never" value that a
freshly constructed slot's `last_written` holds — a slot constructed at
t = 3 and one constructed at t = 7 hold different `updated_at` values
(each holds its own construction instant). -/
theorem no_designated_never_value :
    ¬ ∃ never : Nat, ∀ t0 : Nat,
      (StatusValue.new 1000 t0 : StatusValue Int).updated_at = never := by
  rintro ⟨c, h⟩
  have h3 : (3 : Nat) = c := h 3
  have h7 : (7 : Nat) = c := h 7
  omega

/-- C6 amended: `last_written` is monotonically non-decreasing across
writes (given the clock does not regress), and before the first update
the slot's `last_written` holds the slot's construction instant, not a
distinguished "never" sentinel. -/
theorem last_written_monotone {α : Type} (sv : StatusValue α) (n : Option α)
    (t : Nat) (d : Nat) (t0 : Nat) (h : sv.updated_at ≤ t) :
    sv.updated_at ≤ (sv.update n t).updated_at ∧
    (StatusValue.new d t0 : StatusValue α).updated_at = t0 :=
  ⟨h, rfl⟩

/-- Witness for C6: a concrete write at a later instant does not
decrease `last_written`, and a slot constructed at t = 4 starts with
`last_written = 4`. -/
theorem last_written_monotone_witness :
    ((StatusValue.new 1000 4 : StatusValue Int).updated_at
      ≤ ((StatusValue.new 1000 4 : StatusValue Int).update (some 2) 9).updated_at) ∧
    (StatusValue.new 1000 4 : StatusValue Int).updated_at = 4 :=
  ⟨(last_written_monotone (StatusValue.new 1000 4) (some 2) 9 1000 4 (by decide)).1,
   (last_written_monotone (StatusValue.new 1000 4) (some 2) 9 1000 4 (by decide)).2⟩

/-- C7: a line whose decode fails, and a recognized but unsupported
sentence, change no Status Store slot, and the ingestion task keeps
running to process subsequent lines. -/
theorem decode_failure_ignored {α : Type} (st : NmeaStatus α) (now : Nat) :
    ingestLine st .decodeError now = st ∧
    ingestLine st .otherSentence now = st ∧
    ingestStep (.running st) (.line .decodeError) now = .running st ∧
    ingestStep (.running st) (.line .otherSentence) now = .running st :=
  ⟨rfl, rfl, rfl, rfl⟩

/-- C8: the render loop starts Running; from Running, a cancellation
event moves it to Terminated exactly when the event is an Esc key
event, and every other event leaves it Running; a tick leaves it
Running; Terminated is absorbing; and a Terminated render loop means
the process's main activity has ended. -/
theorem render_loop_state_machine (e : TermEvent) (i : LoopInput) :
    runInit = RunState.running ∧
    (runStep .running (.event e) = .terminated ↔ e = .key .esc) ∧
    runStep .running .tick = .running ∧
    runStep .terminated i = .terminated ∧
    ∀ ts : TaskState Int,
      processEnded { ingest := ts, render := .terminated } = true := by
  refine ⟨rfl, ?_, rfl, ?_, fun ts => rfl⟩
  · cases e with
    | key c => cases c <;> decide
    | nonKey => decide
  · cases i <;> rfl

/-- C9: no ingestion path writes the heading, speed-over-ground or
course-over-ground slots (only GGA sentences are recognized and GGA
carries none of them), so in every reachable store their stored value
is `none` and they display the unknown placeholder at every sample
time. -/
theorem hdg_sog_cog_never_written {α : Type} (timeout : Nat) (now0 : Nat)
    (st : NmeaStatus α) (h : Reachable timeout now0 st) :
    st.hdg.inner = none ∧ st.sog.inner = none ∧ st.cog.inner = none ∧
    ∀ (toStr : α → String) (now : Nat),
      statusText toStr st.hdg now = "value" ∧
      statusText toStr st.sog now = "value" ∧
      statusText toStr st.cog now = "value" := by
  induction h with
  | init =>
      refine ⟨rfl, rfl, rfl, fun toStr now => ?_⟩
      exact ⟨statusText_of_inner_none toStr _ now rfl,
        statusText_of_inner_none toStr _ now rfl,
        statusText_of_inner_none toStr _ now rfl⟩
  | step st r now hr ih =>
      obtain ⟨h1, h2, h3, _⟩ := ih
      cases r with
      | gga g =>
          refine ⟨h1, h2, h3, fun toStr now2 => ?_⟩
          exact ⟨statusText_of_inner_none toStr _ now2 h1,
            statusText_of_inner_none toStr _ now2 h2,
            statusText_of_inner_none toStr _ now2 h3⟩
      | otherSentence =>
          refine ⟨h1, h2, h3, fun toStr now2 => ?_⟩
          exact ⟨statusText_of_inner_none toStr _ now2 h1,
            statusText_of_inner_none toStr _ now2 h2,
            statusText_of_inner_none toStr _ now2 h3⟩
      | decodeError =>
          refine ⟨h1, h2, h3, fun toStr now2 => ?_⟩
          exact ⟨statusText_of_inner_none toStr _ now2 h1,
            statusText_of_inner_none toStr _ now2 h2,
            statusText_of_inner_none toStr _ now2 h3⟩

/-- Witness for C9: after ingesting a concrete GGA sentence into the
freshly constructed store, the heading slot still stores nothing and
the speed-over-ground slot displays the placeholder. -/
theorem hdg_sog_cog_never_written_witness :
    (ingestLine (NmeaStatus.new 1000 0 : NmeaStatus Int)
      (.gga { latitude := some 12, longitude := some 34, altitude := none,
              fix_type := some .gps }) 500).hdg.inner = none ∧
    statusText toString
      ((ingestLine (NmeaStatus.new 1000 0 : NmeaStatus Int)
        (.gga { latitude := some 12, longitude := some 34, altitude := none,
                fix_type := some .gps }) 500).sog) 700 = "value" := by
  have h := hdg_sog_cog_never_written 1000 0 _
    (Reachable.step (NmeaStatus.new 1000 0 : NmeaStatus Int)
      (ParseOutcome.gga ⟨some 12, some 34, none, some FixType.gps⟩)
      500 Reachable.init)
  exact ⟨h.1, (h.2.2.2 toString 700).2.1⟩
